import Mathlib

/-!
Verification of the bulk-download pipeline in
`Antiviral_Compounds_Download.py` (functions `download_molecule`,
`process_link_file`, `main`).

The shallow embedding models each fetch attempt by an oracle event
describing what the network interaction did, threads the destination
file's state (`Option (List Nat)`: absent, or present with its byte
content) explicitly, and records the backoff sleeps performed between
retries as a list of rational durations.
-/

namespace AntiviralDownload

/-- `MAX_RETRIES = 3` from the script's configuration section. -/
def MAX_RETRIES : Nat := 3

/-- What one attempt of `download_molecule` observes.

* `response status chunks`: `requests.get` returned with this status code;
  when the status is 200 the body's chunks are streamed and written in full.
* `midStreamError written`: `requests.get` returned 200, the file was opened
  (truncating it) and `written` chunks were written, then a
  `requests.exceptions.RequestException` was raised during `iter_content`.
* `netError`: `requests.get` (or the connection) raised a
  `requests.exceptions.RequestException` before any byte was written.
* `otherError w`: some exception that is not a `RequestException` was raised;
  when `w = some written` it was raised after the file had been opened in the
  200 branch with `written` chunks already written, when `w = none` it was
  raised before the file was touched. -/
inductive AttemptEvent where
  | response (status : Nat) (chunks : List (List Nat))
  | midStreamError (written : List (List Nat))
  | netError
  | otherError (w : Option (List (List Nat)))
deriving DecidableEq

/-- Result of a Python call: a returned boolean, or an escaped exception. -/
inductive PyResult where
  | ret (b : Bool)
  | raised
deriving DecidableEq

/-- The bytes the writing loop leaves in the file: each chunk is written by
`f.write(chunk)` guarded by `if chunk:`, so empty chunks are skipped. -/
def writeChunks (chunks : List (List Nat)) : List Nat :=
  (chunks.filter (fun c => !c.isEmpty)).flatten

/-- State returned by the embedded `download_molecule`: the Python result,
the destination file's state, the number of attempts performed, and the
list of backoff sleeps (`2 ** retries + random.random()`) performed. -/
structure DlState where
  result : PyResult
  file : Option (List Nat)
  attempts : Nat
  backoffWaits : List ℚ
deriving DecidableEq

/-- Raw effect of the `try` body of one attempt, before any `except` handler
runs: either the 200 branch completed and returned `True`, or a non-success
status fell through to the `else` branch, or an exception was raised
(`RequestException` or other). The second component is the destination
file's state after the attempt. -/
inductive RawOutcome where
  | returnedTrue
  | nonSuccess (status : Nat)
  | raisedRequestError
  | raisedOther
deriving DecidableEq

/-- Semantics of one attempt's `try` body. -/
def attemptRaw : AttemptEvent → Option (List Nat) → RawOutcome × Option (List Nat)
  | .response s chunks, file =>
      if s = 200 then (.returnedTrue, some (writeChunks chunks))
      else (.nonSuccess s, file)
  | .midStreamError written, _ => (.raisedRequestError, some (writeChunks written))
  | .netError, file => (.raisedRequestError, file)
  | .otherError none, file => (.raisedOther, file)
  | .otherError (some written), _ => (.raisedOther, some (writeChunks written))

/-- Fuel-indexed embedding of `download_molecule(url, output_path, retries)`.

`ev n` is what the attempt made with `retries = n` observes, `j n` the value
of `random.random()` used in the backoff sleep after that attempt.  The
`except requests.exceptions.RequestException` handler and the non-200 `else`
branch both retry while `retries < MAX_RETRIES` (sleeping
`2 ** retries + random.random()`), the final `except Exception` handler
returns `False` at once.  The fuel-0 result `raised` is unreachable for the
fuel used by `download_molecule` below. -/
def downloadAux (ev : Nat → AttemptEvent) (j : Nat → ℚ) :
    Nat → Nat → Option (List Nat) → DlState
  | 0, _, file => ⟨.raised, file, 0, []⟩
  | fuel+1, retries, file =>
    match attemptRaw (ev retries) file with
    | (.returnedTrue, file') => ⟨.ret true, file', 1, []⟩
    | (.nonSuccess _, file') =>
        if retries < MAX_RETRIES then
          let r := downloadAux ev j fuel (retries+1) file'
          ⟨r.result, r.file, r.attempts + 1, ((2:ℚ)^retries + j retries) :: r.backoffWaits⟩
        else ⟨.ret false, file', 1, []⟩
    | (.raisedRequestError, file') =>
        if retries < MAX_RETRIES then
          let r := downloadAux ev j fuel (retries+1) file'
          ⟨r.result, r.file, r.attempts + 1, ((2:ℚ)^retries + j retries) :: r.backoffWaits⟩
        else ⟨.ret false, file', 1, []⟩
    | (.raisedOther, file') => ⟨.ret false, file', 1, []⟩

/-- `download_molecule` itself: the recursion depth from any starting
`retries` is at most `MAX_RETRIES + 1`, so this fuel always suffices. -/
def download_molecule (ev : Nat → AttemptEvent) (j : Nat → ℚ)
    (retries : Nat) (file : Option (List Nat)) : DlState :=
  downloadAux ev j (MAX_RETRIES + 1) retries file

/-- What `process_link_file` reads from the link file: the stripped URL,
or an exception while opening/reading it. -/
inductive LinkSpec where
  | unreadable
  | content (url : String)

/-- Size `os.path.getsize` reports (only consulted after an existence
check, so the `none` value is never relevant). -/
def fileSize : Option (List Nat) → Nat
  | none => 0
  | some c => c.length

/-- Embedding of `process_link_file(file_path)` for the link file
`cid ++ ".txt"`: returns the `(compound_id, success)` pair together with
the destination file's final state.  On exception anywhere it returns
`(os.path.basename(file_path), False)`; after a download it accepts only
when the file exists with size > 0, and removes a zero-byte file. -/
def process_link_file (cid : String) (spec : LinkSpec)
    (ev : Nat → AttemptEvent) (j : Nat → ℚ)
    (file : Option (List Nat)) : (String × Bool) × Option (List Nat) :=
  match spec with
  | .unreadable => ((cid ++ ".txt", false), file)
  | .content url =>
    if url = "" then ((cid, false), file)
    else
      let d := download_molecule ev j 0 file
      match d.result with
      | .raised => ((cid ++ ".txt", false), d.file)
      | .ret success =>
        if success = true ∧ d.file.isSome = true ∧ 0 < fileSize d.file then
          ((cid, true), d.file)
        else if d.file.isSome = true ∧ fileSize d.file = 0 then
          ((cid, false), none)
        else
          ((cid, false), d.file)

/-- One directory entry of `os.listdir(LINKS_DIRECTORY)`, with the
`os.path.isfile` answer for it. -/
structure DirEntry where
  name : String
  isFile : Bool
deriving DecidableEq

/-- Result of enumerating the links directory: the `try` around
`os.listdir` either raises or yields the entries. -/
inductive Listing where
  | error
  | ok (entries : List DirEntry)

/-- What `future.result()` yields for one submitted link file: the
`(compound_id, success)` pair returned by `process_link_file`, or an
exception. -/
inductive ItemRun where
  | value (cid : String) (success : Bool)
  | raisedFuture
deriving DecidableEq

/-- `f.endswith('.txt')`, computed on the string's character list: the
last four characters are `.txt`. -/
def endsWithTxt (name : String) : Bool :=
  name.data.reverse.take 4 == ".txt".data.reverse

/-- The `link_files` list: entries whose name ends in `.txt` and that are
regular files. -/
def linkFiles (entries : List DirEntry) : List String :=
  (entries.filter (fun e => endsWithTxt e.name && e.isFile)).map (fun e => e.name)

/-- Observable result of `main`: the files submitted to the pool, the two
counters, and the persisted `download_summary.txt` content
`(total, succeeded, failed)` when it was written. -/
structure MainResult where
  dispatched : List String
  successful_downloads : Nat
  failed_downloads : Nat
  summary : Option (Nat × Nat × Nat)
deriving DecidableEq

/-- One step of the `as_completed` accounting loop: one `future.result()`
is counted into exactly one of the two counters (an exception from
`future.result()` counts as failed). -/
def tally (run : String → ItemRun) (acc : Nat × Nat) (f : String) : Nat × Nat :=
  match run f with
  | .value _ true => (acc.1 + 1, acc.2)
  | .value _ false => (acc.1, acc.2 + 1)
  | .raisedFuture => (acc.1, acc.2 + 1)

/-- The `as_completed` accounting loop over all submitted futures. -/
def countOutcomes (run : String → ItemRun) (files : List String) : Nat × Nat :=
  files.foldl (tally run) (0, 0)

/-- Embedding of `main()`: on a listing error, or when no `.txt` link file
is found, it returns before dispatching anything and writes no summary;
otherwise it dispatches every link file, counts outcomes, and writes the
summary `(total_files, successful_downloads, failed_downloads)` — the
write is wrapped in `try`/`except`, `summaryWriteOk` says whether it
succeeded. -/
def main (listing : Listing) (run : String → ItemRun) (summaryWriteOk : Bool) : MainResult :=
  match listing with
  | .error => ⟨[], 0, 0, none⟩
  | .ok entries =>
    let files := linkFiles entries
    if files.length = 0 then ⟨[], 0, 0, none⟩
    else
      let c := countOutcomes run files
      ⟨files, c.1, c.2, if summaryWriteOk then some (files.length, c.1, c.2) else none⟩

/-- An attempt outcome that the code retries on: a non-success HTTP status
or a network-level `RequestException` (at request time or mid-stream). -/
def retriableFail : AttemptEvent → Bool
  | .response s _ => s != 200
  | .midStreamError _ => true
  | .netError => true
  | .otherError _ => false

/-- An attempt that never receives a success status: a non-200 response, a
network error at request time, or an unexpected error raised before the
200 branch opened the file. -/
def noSuccessStatus : AttemptEvent → Bool
  | .response s _ => s != 200
  | .midStreamError _ => false
  | .netError => true
  | .otherError w => w.isNone

/-! ## Helper lemmas -/

/-- The bytes written are exactly the received body: skipping the empty
chunks does not change the concatenation. -/
lemma writeChunks_eq_flatten (chunks : List (List Nat)) :
    writeChunks chunks = chunks.flatten := by
  simp [writeChunks, List.flatten_filter_not_isEmpty]

/-- With enough fuel, `downloadAux` never yields `raised`: both `except`
handlers convert every exception raised by the attempt body into a
returned boolean. -/
lemma downloadAux_ret (ev : Nat → AttemptEvent) (j : Nat → ℚ) :
    ∀ (fuel retries : Nat) (file : Option (List Nat)),
      MAX_RETRIES + 1 ≤ retries + fuel → 1 ≤ fuel →
      ∃ b, (downloadAux ev j fuel retries file).result = PyResult.ret b := by
  intro fuel
  induction fuel with
  | zero => intro retries file _ h1; omega
  | succ fuel ih =>
    intro retries file hle _
    have hM : MAX_RETRIES = 3 := rfl
    rcases hev : attemptRaw (ev retries) file with ⟨raw, file'⟩
    cases raw with
    | returnedTrue => exact ⟨true, by simp [downloadAux, hev]⟩
    | nonSuccess s =>
      by_cases hr : retries < MAX_RETRIES
      · obtain ⟨b, hb⟩ := ih (retries+1) file' (by omega) (by omega)
        exact ⟨b, by simp [downloadAux, hev, hr, hb]⟩
      · exact ⟨false, by simp [downloadAux, hev, hr]⟩
    | raisedRequestError =>
      by_cases hr : retries < MAX_RETRIES
      · obtain ⟨b, hb⟩ := ih (retries+1) file' (by omega) (by omega)
        exact ⟨b, by simp [downloadAux, hev, hr, hb]⟩
      · exact ⟨false, by simp [downloadAux, hev, hr]⟩
    | raisedOther => exact ⟨false, by simp [downloadAux, hev]⟩

/-- `download_molecule` never raises, for any starting `retries`. -/
lemma download_molecule_ret (ev : Nat → AttemptEvent) (j : Nat → ℚ)
    (retries : Nat) (file : Option (List Nat)) :
    ∃ b, (download_molecule ev j retries file).result = PyResult.ret b := by
  have hM : MAX_RETRIES = 3 := rfl
  exact downloadAux_ret ev j (MAX_RETRIES + 1) retries file (by omega) (by omega)

/-- On a retriable attempt outcome, one step of `downloadAux` either
retries (sleeping `2 ^ retries + j retries`) or, at the retry bound,
returns `False`. -/
lemma downloadAux_retriable_step (ev : Nat → AttemptEvent) (j : Nat → ℚ)
    (fuel retries : Nat) (file : Option (List Nat))
    (h : retriableFail (ev retries) = true) :
    downloadAux ev j (fuel+1) retries file =
      if retries < MAX_RETRIES then
        let r := downloadAux ev j fuel (retries+1) (attemptRaw (ev retries) file).2
        ⟨r.result, r.file, r.attempts + 1, ((2:ℚ)^retries + j retries) :: r.backoffWaits⟩
      else ⟨PyResult.ret false, (attemptRaw (ev retries) file).2, 1, []⟩ := by
  cases e : ev retries with
  | response s ch =>
    rw [e] at h
    have hs : s ≠ 200 := by simpa [retriableFail] using h
    by_cases hr : retries < MAX_RETRIES <;>
      simp [downloadAux, attemptRaw, e, hs, hr]
  | midStreamError w =>
    by_cases hr : retries < MAX_RETRIES <;>
      simp [downloadAux, attemptRaw, e, hr]
  | netError =>
    by_cases hr : retries < MAX_RETRIES <;>
      simp [downloadAux, attemptRaw, e, hr]
  | otherError w =>
    rw [e] at h
    simp [retriableFail] at h

/-- When every attempt through the retry bound fails retriably, the
download returns `False` after `MAX_RETRIES + 1 - retries` attempts,
having slept `2 ^ i + j i` before each retry. -/
lemma downloadAux_allFail (ev : Nat → AttemptEvent) (j : Nat → ℚ) :
    ∀ (fuel retries : Nat) (file : Option (List Nat)),
      MAX_RETRIES - retries < fuel → retries ≤ MAX_RETRIES →
      (∀ n, retries ≤ n → n ≤ MAX_RETRIES → retriableFail (ev n) = true) →
      (downloadAux ev j fuel retries file).result = PyResult.ret false ∧
      (downloadAux ev j fuel retries file).attempts = MAX_RETRIES + 1 - retries ∧
      (downloadAux ev j fuel retries file).backoffWaits =
        (List.range' retries (MAX_RETRIES - retries)).map (fun i => (2:ℚ)^i + j i) := by
  intro fuel
  induction fuel with
  | zero => intro retries file h _ _; omega
  | succ fuel ih =>
    intro retries file hf hr hall
    have hM : MAX_RETRIES = 3 := rfl
    have hstep := downloadAux_retriable_step ev j fuel retries file (hall retries le_rfl hr)
    by_cases hlt : retries < MAX_RETRIES
    · obtain ⟨h1, h2, h3⟩ :=
        ih (retries+1) (attemptRaw (ev retries) file).2 (by omega) (by omega)
          (fun n hn1 hn2 => hall n (by omega) hn2)
      rw [hstep, if_pos hlt]
      have hrange : MAX_RETRIES - retries = (MAX_RETRIES - (retries+1)) + 1 := by omega
      refine ⟨h1, ?_, ?_⟩
      · show (downloadAux ev j fuel (retries+1) (attemptRaw (ev retries) file).2).attempts + 1
            = MAX_RETRIES + 1 - retries
        rw [h2]; omega
      · show ((2:ℚ)^retries + j retries)
            :: (downloadAux ev j fuel (retries+1) (attemptRaw (ev retries) file).2).backoffWaits
            = (List.range' retries (MAX_RETRIES - retries)).map (fun i => (2:ℚ)^i + j i)
        rw [h3, hrange, List.range'_succ, List.map_cons]
    · rw [hstep, if_neg hlt]
      have h0 : MAX_RETRIES - retries = 0 := by omega
      refine ⟨rfl, ?_, ?_⟩
      · show 1 = MAX_RETRIES + 1 - retries
        omega
      · show ([] : List ℚ)
            = (List.range' retries (MAX_RETRIES - retries)).map (fun i => (2:ℚ)^i + j i)
        rw [h0]
        simp

/-- When the first `m` attempts fail retriably and attempt `m` (counting
from `retries`) returns 200 with body `chunks`, the download succeeds with
`m + 1` attempts, the destination holding exactly the received bytes, and
one backoff sleep `2 ^ i + j i` per failed attempt. -/
lemma downloadAux_success (ev : Nat → AttemptEvent) (j : Nat → ℚ)
    (chunks : List (List Nat)) :
    ∀ (m fuel retries : Nat) (file : Option (List Nat)),
      m < fuel → retries + m ≤ MAX_RETRIES →
      (∀ n, retries ≤ n → n < retries + m → retriableFail (ev n) = true) →
      ev (retries + m) = AttemptEvent.response 200 chunks →
      downloadAux ev j fuel retries file =
        ⟨PyResult.ret true, some (writeChunks chunks), m + 1,
         (List.range' retries m).map (fun i => (2:ℚ)^i + j i)⟩ := by
  intro m
  induction m with
  | zero =>
    intro fuel retries file hf _ _ hev
    obtain ⟨fuel, rfl⟩ : ∃ f, fuel = f + 1 := ⟨fuel - 1, by omega⟩
    simp only [Nat.add_zero] at hev
    simp [downloadAux, attemptRaw, hev]
  | succ m ih =>
    intro fuel retries file hf hle hfail hev
    obtain ⟨fuel, rfl⟩ : ∃ f, fuel = f + 1 := ⟨fuel - 1, by omega⟩
    have hM : MAX_RETRIES = 3 := rfl
    have hr : retries < MAX_RETRIES := by omega
    have hstep := downloadAux_retriable_step ev j fuel retries file
      (hfail retries le_rfl (by omega))
    have hrec := ih fuel (retries+1) (attemptRaw (ev retries) file).2
      (by omega) (by omega)
      (fun n hn1 hn2 => hfail n (by omega) (by omega))
      (by rw [show retries+1+m = retries+(m+1) by omega]; exact hev)
    rw [hstep, if_pos hr]
    simp only [hrec]
    rw [List.range'_succ, List.map_cons]

/-- When no attempt ever receives a success status, the destination file
is never touched and the download never returns `True`. -/
lemma downloadAux_noSuccess (ev : Nat → AttemptEvent) (j : Nat → ℚ)
    (hno : ∀ n, noSuccessStatus (ev n) = true) :
    ∀ (fuel retries : Nat) (file : Option (List Nat)),
      (downloadAux ev j fuel retries file).file = file ∧
      (downloadAux ev j fuel retries file).result ≠ PyResult.ret true := by
  intro fuel
  induction fuel with
  | zero => intro retries file; exact ⟨rfl, by simp [downloadAux]⟩
  | succ fuel ih =>
    intro retries file
    have h := hno retries
    cases e : ev retries with
    | response s ch =>
      rw [e] at h
      have hs : s ≠ 200 := by simpa [noSuccessStatus] using h
      by_cases hlt : retries < MAX_RETRIES
      · have hrec := ih (retries+1) file
        exact ⟨by simp [downloadAux, attemptRaw, e, hs, hlt, hrec.1],
               by simp [downloadAux, attemptRaw, e, hs, hlt]; exact hrec.2⟩
      · exact ⟨by simp [downloadAux, attemptRaw, e, hs, hlt],
               by simp [downloadAux, attemptRaw, e, hs, hlt]⟩
    | midStreamError w =>
      rw [e] at h; simp [noSuccessStatus] at h
    | netError =>
      by_cases hlt : retries < MAX_RETRIES
      · have hrec := ih (retries+1) file
        exact ⟨by simp [downloadAux, attemptRaw, e, hlt, hrec.1],
               by simp [downloadAux, attemptRaw, e, hlt]; exact hrec.2⟩
      · exact ⟨by simp [downloadAux, attemptRaw, e, hlt],
               by simp [downloadAux, attemptRaw, e, hlt]⟩
    | otherError w =>
      rw [e] at h
      have hw : w = none := by
        cases w with
        | none => rfl
        | some ww => simp [noSuccessStatus] at h
      subst hw
      exact ⟨by simp [downloadAux, attemptRaw, e],
             by simp [downloadAux, attemptRaw, e]⟩

/-- The accounting loop adds exactly one unit per processed file. -/
lemma countOutcomes_foldl (run : String → ItemRun) :
    ∀ (files : List String) (acc : Nat × Nat),
      (files.foldl (tally run) acc).1 + (files.foldl (tally run) acc).2 =
        acc.1 + acc.2 + files.length := by
  intro files
  induction files with
  | nil => intro acc; simp
  | cons f t ih =>
    intro acc
    have hrest := ih (tally run acc f)
    cases hr : run f with
    | value cid b =>
      cases b <;> simp [List.foldl_cons, tally, hr] at hrest ⊢ <;> omega
    | raisedFuture =>
      simp [List.foldl_cons, tally, hr] at hrest ⊢
      omega

/-- The two counters of `countOutcomes` always sum to the number of
submitted link files: each file is counted exactly once. -/
lemma countOutcomes_sum (run : String → ItemRun) (files : List String) :
    (countOutcomes run files).1 + (countOutcomes run files).2 = files.length := by
  simpa using countOutcomes_foldl run files (0, 0)

/-! ## Claim theorems -/

/-- Events refuting C1: the first attempt receives a 200 status and a
`RequestException` mid-stream after one non-empty chunk was written; every
retry hits a network error. -/
def evPartialThenFail : Nat → AttemptEvent
  | 0 => AttemptEvent.midStreamError [[1]]
  | _ => AttemptEvent.netError

/-- C1 (counterexample): a fetch whose first attempt breaks mid-stream
after writing one byte and whose retries all fail ends with a failure
outcome while a non-empty file remains at the destination — the claimed
"artifact exists iff Success" invariant and the "no partial file after a
terminal failure" guarantee both fail. -/
theorem C1_counterexample :
    (process_link_file "SN1" (LinkSpec.content "u") evPartialThenFail
        (fun _ => 0) none).1.2 = false ∧
    (process_link_file "SN1" (LinkSpec.content "u") evPartialThenFail
        (fun _ => 0) none).2 = some [1] := by
  constructor <;> rfl

/-- C1 (amended): after `process_link_file` on a non-empty URL, a success
outcome implies a non-empty artifact at the destination, and after a
failure outcome no zero-byte file remains (zero-byte artifacts are
removed) — but a non-empty leftover file is possible. -/
theorem C1_amended (cid url : String) (ev : Nat → AttemptEvent) (j : Nat → ℚ)
    (file0 : Option (List Nat)) (hurl : url ≠ "") :
    ((process_link_file cid (LinkSpec.content url) ev j file0).1.2 = true →
      ∃ c, (process_link_file cid (LinkSpec.content url) ev j file0).2 = some c ∧
        0 < c.length) ∧
    ((process_link_file cid (LinkSpec.content url) ev j file0).1.2 = false →
      (process_link_file cid (LinkSpec.content url) ev j file0).2 ≠ some []) := by
  obtain ⟨b, hb⟩ := download_molecule_ret ev j 0 file0
  simp only [process_link_file, if_neg hurl, hb]
  by_cases h1 : b = true ∧ (download_molecule ev j 0 file0).file.isSome = true ∧
      0 < fileSize (download_molecule ev j 0 file0).file
  · rw [if_pos h1]
    refine ⟨fun _ => ?_, fun hfalse => by simp at hfalse⟩
    obtain ⟨-, hsome, hpos⟩ := h1
    cases hfile : (download_molecule ev j 0 file0).file with
    | none => rw [hfile] at hsome; simp at hsome
    | some c =>
      rw [hfile] at hpos
      exact ⟨c, rfl, by simpa [fileSize] using hpos⟩
  · rw [if_neg h1]
    by_cases h2 : (download_molecule ev j 0 file0).file.isSome = true ∧
        fileSize (download_molecule ev j 0 file0).file = 0
    · rw [if_pos h2]
      exact ⟨fun htrue => by simp at htrue, fun _ => by simp⟩
    · rw [if_neg h2]
      refine ⟨fun htrue => by simp at htrue, fun _ hnil => ?_⟩
      have hnil' : (download_molecule ev j 0 file0).file = some ([] : List Nat) := hnil
      exact h2 ⟨by rw [hnil']; rfl, by rw [hnil']; rfl⟩

/-- Witness for C1 (amended): a first-attempt 200 with body `[3, 4]`. -/
theorem C1_witness :
    ((process_link_file "SN2" (LinkSpec.content "u")
        (fun _ => AttemptEvent.response 200 [[3, 4]]) (fun _ => 0) none).1.2 = true →
      ∃ c, (process_link_file "SN2" (LinkSpec.content "u")
        (fun _ => AttemptEvent.response 200 [[3, 4]]) (fun _ => 0) none).2 = some c ∧
        0 < c.length) ∧
    ((process_link_file "SN2" (LinkSpec.content "u")
        (fun _ => AttemptEvent.response 200 [[3, 4]]) (fun _ => 0) none).1.2 = false →
      (process_link_file "SN2" (LinkSpec.content "u")
        (fun _ => AttemptEvent.response 200 [[3, 4]]) (fun _ => 0) none).2 ≠ some []) :=
  C1_amended "SN2" "u" (fun _ => AttemptEvent.response 200 [[3, 4]]) (fun _ => 0) none
    (by decide)

/-- C2: when every attempt through the retry bound fails with a non-success
status or a network-level error, `download_molecule` performs exactly
`MAX_RETRIES + 1 = 4` attempts and returns the failure outcome. -/
theorem C2_all_attempts_fail (ev : Nat → AttemptEvent) (j : Nat → ℚ)
    (file : Option (List Nat))
    (h : ∀ n, n ≤ MAX_RETRIES → retriableFail (ev n) = true) :
    (download_molecule ev j 0 file).result = PyResult.ret false ∧
    (download_molecule ev j 0 file).attempts = MAX_RETRIES + 1 := by
  have hall := downloadAux_allFail ev j (MAX_RETRIES + 1) 0 file (by omega) (by omega)
    (fun n _ hn => h n hn)
  exact ⟨hall.1, by simpa using hall.2.1⟩

/-- Witness for C2: every attempt is a network error. -/
theorem C2_witness :
    (download_molecule (fun _ => AttemptEvent.netError) (fun _ => 0) 0 none).result
      = PyResult.ret false ∧
    (download_molecule (fun _ => AttemptEvent.netError) (fun _ => 0) 0 none).attempts
      = MAX_RETRIES + 1 :=
  C2_all_attempts_fail (fun _ => AttemptEvent.netError) (fun _ => 0) none
    (fun _ _ => rfl)

/-- Events refuting C4: every attempt receives status 404. -/
def ev404 : Nat → AttemptEvent := fun _ => AttemptEvent.response 404 []

/-- C4 (counterexample): a fetch receiving HTTP 404 is NOT terminated
without retrying — it performs 4 attempts with 3 backoff sleeps, entering
the backoff-retry loop like any transient failure. -/
theorem C4_counterexample :
    (download_molecule ev404 (fun _ => 0) 0 none).attempts = 4 ∧
    (download_molecule ev404 (fun _ => 0) 0 none).backoffWaits.length = 3 := by
  constructor <;> rfl

/-- C4 (amended): a NotFound-class status (any non-200 status, e.g. 404)
is retried exactly like a transient failure: backoff sleeps
`2 ^ i + jitter` for `i = 0, 1, 2`, then a terminal failure after
`MAX_RETRIES + 1` attempts. -/
theorem C4_notFound_retried (ev : Nat → AttemptEvent) (j : Nat → ℚ)
    (file : Option (List Nat)) (s : Nat) (chunks : List (List Nat))
    (hs : s ≠ 200)
    (hev : ∀ n, n ≤ MAX_RETRIES → ev n = AttemptEvent.response s chunks) :
    (download_molecule ev j 0 file).result = PyResult.ret false ∧
    (download_molecule ev j 0 file).attempts = MAX_RETRIES + 1 ∧
    (download_molecule ev j 0 file).backoffWaits =
      (List.range' 0 MAX_RETRIES).map (fun i => (2:ℚ)^i + j i) := by
  have hall := downloadAux_allFail ev j (MAX_RETRIES + 1) 0 file (by omega) (by omega)
    (fun n _ hn => by rw [hev n hn]; simpa [retriableFail] using hs)
  exact ⟨hall.1, by simpa using hall.2.1, by simpa using hall.2.2⟩

/-- Witness for C4 (amended): status 404 on every attempt. -/
theorem C4_witness :
    (download_molecule ev404 (fun _ => 0) 0 none).result = PyResult.ret false ∧
    (download_molecule ev404 (fun _ => 0) 0 none).attempts = MAX_RETRIES + 1 ∧
    (download_molecule ev404 (fun _ => 0) 0 none).backoffWaits =
      (List.range' 0 MAX_RETRIES).map (fun i => (2:ℚ)^i + (fun _ => (0:ℚ)) i) :=
  C4_notFound_retried ev404 (fun _ => 0) none 404 [] (by decide) (fun _ _ => rfl)

/-- C5: `download_molecule` never lets an exception escape to its caller —
for every oracle it returns a boolean, and an unexpected (non-request)
internal error is converted into the failure return `False` at once. -/
theorem C5_no_raise (ev : Nat → AttemptEvent) (j : Nat → ℚ) (retries : Nat)
    (file : Option (List Nat)) :
    (∃ b, (download_molecule ev j retries file).result = PyResult.ret b) ∧
    (∀ w, ev retries = AttemptEvent.otherError w →
      (download_molecule ev j retries file).result = PyResult.ret false) := by
  refine ⟨download_molecule_ret ev j retries file, ?_⟩
  intro w hw
  cases w with
  | none => simp [download_molecule, downloadAux, attemptRaw, hw]
  | some ww => simp [download_molecule, downloadAux, attemptRaw, hw]

/-- Concrete oracle for the C5 witness: an unexpected internal error on
the only attempt. -/
def evOtherErr : Nat → AttemptEvent := fun _ => AttemptEvent.otherError none

/-- Witness for C5: the unexpected-error oracle yields the failure
return. -/
theorem C5_witness :
    (download_molecule evOtherErr (fun _ => 0) 0 none).result = PyResult.ret false :=
  (C5_no_raise evOtherErr (fun _ => 0) 0 none).2 none rfl

/-- C3: for any non-empty set of link files, the two counters sum to the
number of files (each file's single `future.result()` is counted exactly
once) and, when the summary write succeeds, the persisted summary holds
exactly the three counts `(total, succeeded, failed)`. -/
theorem C3_one_outcome_per_file (entries : List DirEntry) (run : String → ItemRun)
    (h : linkFiles entries ≠ []) :
    (main (Listing.ok entries) run true).successful_downloads
      + (main (Listing.ok entries) run true).failed_downloads
      = (linkFiles entries).length ∧
    (main (Listing.ok entries) run true).summary =
      some ((linkFiles entries).length,
            (main (Listing.ok entries) run true).successful_downloads,
            (main (Listing.ok entries) run true).failed_downloads) := by
  have hlen : ¬ (linkFiles entries).length = 0 := by
    simpa [List.length_eq_zero] using h
  constructor
  · simpa [main, hlen] using countOutcomes_sum run (linkFiles entries)
  · simp [main, hlen]

/-- Witness for C3: one link file, processed successfully. -/
theorem C3_witness :
    (main (Listing.ok [⟨"a.txt", true⟩]) (fun _ => ItemRun.value "a" true)
        true).successful_downloads
      + (main (Listing.ok [⟨"a.txt", true⟩]) (fun _ => ItemRun.value "a" true)
        true).failed_downloads
      = (linkFiles [⟨"a.txt", true⟩]).length ∧
    (main (Listing.ok [⟨"a.txt", true⟩]) (fun _ => ItemRun.value "a" true)
        true).summary =
      some ((linkFiles [⟨"a.txt", true⟩]).length,
            (main (Listing.ok [⟨"a.txt", true⟩]) (fun _ => ItemRun.value "a" true)
              true).successful_downloads,
            (main (Listing.ok [⟨"a.txt", true⟩]) (fun _ => ItemRun.value "a" true)
              true).failed_downloads) :=
  C3_one_outcome_per_file [⟨"a.txt", true⟩] (fun _ => ItemRun.value "a" true)
    (by decide)

/-- C6: a fetch failing transiently on the first `K` attempts
(`K < MAX_RETRIES`) and succeeding on attempt `K+1` returns `Success` with
`attempts = K + 1`, sleeping exactly `2 ^ i + jitter i` before retry `i`;
with jitter drawn from `[0, 1)` the total backoff wait is at least the sum
of the `K` exponential terms. -/
theorem C6_backoff_then_success (ev : Nat → AttemptEvent) (j : Nat → ℚ)
    (K : Nat) (chunks : List (List Nat)) (file : Option (List Nat))
    (hK : K < MAX_RETRIES)
    (hfail : ∀ n, n < K → retriableFail (ev n) = true)
    (hsucc : ev K = AttemptEvent.response 200 chunks)
    (hjit : ∀ n, 0 ≤ j n ∧ j n < 1) :
    (download_molecule ev j 0 file).result = PyResult.ret true ∧
    (download_molecule ev j 0 file).attempts = K + 1 ∧
    (download_molecule ev j 0 file).backoffWaits =
      (List.range' 0 K).map (fun i => (2:ℚ)^i + j i) ∧
    ((List.range' 0 K).map (fun i : Nat => (2:ℚ)^i)).sum ≤
      (download_molecule ev j 0 file).backoffWaits.sum := by
  have hs := downloadAux_success ev j chunks K (MAX_RETRIES+1) 0 file
    (by omega) (by omega) (fun n _ h2 => hfail n (by omega)) (by simpa using hsucc)
  have hwaits : (download_molecule ev j 0 file).backoffWaits =
      (List.range' 0 K).map (fun i => (2:ℚ)^i + j i) := by
    simp [download_molecule, hs]
  refine ⟨by simp [download_molecule, hs], by simp [download_molecule, hs], hwaits, ?_⟩
  rw [hwaits]
  apply List.sum_le_sum
  intro i _
  exact le_add_of_nonneg_right (hjit i).1

/-- Events for the C6 witness: one network error, then a 200 response. -/
def evOneFailThenOk : Nat → AttemptEvent
  | 0 => AttemptEvent.netError
  | _ => AttemptEvent.response 200 [[5]]

/-- Witness for C6: `K = 1`, jitter constantly `1/2`. -/
theorem C6_witness :
    (download_molecule evOneFailThenOk (fun _ => (1:ℚ)/2) 0 none).result
      = PyResult.ret true ∧
    (download_molecule evOneFailThenOk (fun _ => (1:ℚ)/2) 0 none).attempts = 1 + 1 ∧
    (download_molecule evOneFailThenOk (fun _ => (1:ℚ)/2) 0 none).backoffWaits =
      (List.range' 0 1).map (fun i => (2:ℚ)^i + (fun _ => (1:ℚ)/2) i) ∧
    ((List.range' 0 1).map (fun i : Nat => (2:ℚ)^i)).sum ≤
      (download_molecule evOneFailThenOk (fun _ => (1:ℚ)/2) 0 none).backoffWaits.sum :=
  C6_backoff_then_success evOneFailThenOk (fun _ => (1:ℚ)/2) 1 [[5]] none
    (by decide)
    (fun n hn => by
      have hn0 : n = 0 := by omega
      subst hn0; rfl)
    rfl
    (fun _ => ⟨by norm_num, by norm_num⟩)

/-- C7: a first-attempt 200 response with a zero-byte body yields a single
attempt, a failure outcome from `process_link_file`, and no artifact left
at the destination (the zero-byte file is removed). -/
theorem C7_empty_result (cid url : String) (ev : Nat → AttemptEvent) (j : Nat → ℚ)
    (file0 : Option (List Nat)) (chunks : List (List Nat))
    (hurl : url ≠ "") (hev : ev 0 = AttemptEvent.response 200 chunks)
    (hz : writeChunks chunks = []) :
    (download_molecule ev j 0 file0).attempts = 1 ∧
    (process_link_file cid (LinkSpec.content url) ev j file0).1.2 = false ∧
    (process_link_file cid (LinkSpec.content url) ev j file0).2 = none := by
  have hd : download_molecule ev j 0 file0 =
      ⟨PyResult.ret true, some (writeChunks chunks), 0 + 1,
       (List.range' 0 0).map (fun i => (2:ℚ)^i + j i)⟩ := by
    exact downloadAux_success ev j chunks 0 (MAX_RETRIES+1) 0 file0 (by omega) (by omega)
      (fun n h1 h2 => absurd h2 (by omega)) (by simpa using hev)
  refine ⟨by rw [hd], ?_, ?_⟩ <;>
    simp [process_link_file, if_neg hurl, hd, hz, fileSize]

/-- Witness for C7: a 200 response whose body has no chunks. -/
theorem C7_witness :
    (download_molecule (fun _ => AttemptEvent.response 200 []) (fun _ => 0) 0
        none).attempts = 1 ∧
    (process_link_file "SN3" (LinkSpec.content "u")
        (fun _ => AttemptEvent.response 200 []) (fun _ => 0) none).1.2 = false ∧
    (process_link_file "SN3" (LinkSpec.content "u")
        (fun _ => AttemptEvent.response 200 []) (fun _ => 0) none).2 = none :=
  C7_empty_result "SN3" "u" (fun _ => AttemptEvent.response 200 []) (fun _ => 0)
    none [] (by decide) rfl rfl

/-- C8: a first-attempt 200 response with a non-empty body succeeds with
`attempts = 1`, no backoff sleep, a success outcome from
`process_link_file`, and an artifact holding exactly the received
bytes. -/
theorem C8_first_attempt_success (cid url : String) (ev : Nat → AttemptEvent)
    (j : Nat → ℚ) (file0 : Option (List Nat)) (chunks : List (List Nat))
    (hurl : url ≠ "") (hev : ev 0 = AttemptEvent.response 200 chunks)
    (hnz : chunks.flatten ≠ []) :
    (download_molecule ev j 0 file0).result = PyResult.ret true ∧
    (download_molecule ev j 0 file0).attempts = 1 ∧
    (download_molecule ev j 0 file0).backoffWaits = [] ∧
    (process_link_file cid (LinkSpec.content url) ev j file0).1.2 = true ∧
    (process_link_file cid (LinkSpec.content url) ev j file0).2
      = some chunks.flatten := by
  have hd : download_molecule ev j 0 file0 =
      ⟨PyResult.ret true, some (writeChunks chunks), 0 + 1,
       (List.range' 0 0).map (fun i => (2:ℚ)^i + j i)⟩ := by
    exact downloadAux_success ev j chunks 0 (MAX_RETRIES+1) 0 file0 (by omega) (by omega)
      (fun n h1 h2 => absurd h2 (by omega)) (by simpa using hev)
  have hw := writeChunks_eq_flatten chunks
  have hpos : 0 < chunks.flatten.length := by
    cases hc : chunks.flatten with
    | nil => exact absurd hc hnz
    | cons a t => simp
  have hpos' : 0 < (List.map List.length chunks).sum := by
    simpa using hpos
  refine ⟨by rw [hd], by rw [hd], by rw [hd]; simp, ?_, ?_⟩ <;>
    simp [process_link_file, if_neg hurl, hd, hw, fileSize, hpos, hpos']

/-- Witness for C8: a 200 response with body `[9, 8]` in one chunk. -/
theorem C8_witness :
    (download_molecule (fun _ => AttemptEvent.response 200 [[9, 8]]) (fun _ => 0) 0
        none).result = PyResult.ret true ∧
    (download_molecule (fun _ => AttemptEvent.response 200 [[9, 8]]) (fun _ => 0) 0
        none).attempts = 1 ∧
    (download_molecule (fun _ => AttemptEvent.response 200 [[9, 8]]) (fun _ => 0) 0
        none).backoffWaits = [] ∧
    (process_link_file "SN4" (LinkSpec.content "u")
        (fun _ => AttemptEvent.response 200 [[9, 8]]) (fun _ => 0) none).1.2 = true ∧
    (process_link_file "SN4" (LinkSpec.content "u")
        (fun _ => AttemptEvent.response 200 [[9, 8]]) (fun _ => 0) none).2
      = some ([[9, 8]] : List (List Nat)).flatten :=
  C8_first_attempt_success "SN4" "u" (fun _ => AttemptEvent.response 200 [[9, 8]])
    (fun _ => 0) none [[9, 8]] (by decide) rfl (by decide)

/-- C9: re-running the fetch for an identifier whose destination already
holds a non-empty artifact leaves that artifact unchanged, provided the
re-fetch either succeeds producing the identical bytes or fails without
ever receiving a success status. -/
theorem C9_rerun_preserves_artifact (cid url : String) (ev : Nat → AttemptEvent)
    (j : Nat → ℚ) (prior : List Nat)
    (hurl : url ≠ "") (hp : prior ≠ [])
    (h : (∃ K chunks, K ≤ MAX_RETRIES ∧
            (∀ n, n < K → retriableFail (ev n) = true) ∧
            ev K = AttemptEvent.response 200 chunks ∧ writeChunks chunks = prior) ∨
         (∀ n, noSuccessStatus (ev n) = true)) :
    (process_link_file cid (LinkSpec.content url) ev j (some prior)).2
      = some prior := by
  have hppos : 0 < prior.length := by
    cases hc : prior with
    | nil => exact absurd hc hp
    | cons a t => simp
  rcases h with ⟨K, chunks, hK, hfail, hsucc, hbytes⟩ | hno
  · have hd : download_molecule ev j 0 (some prior) =
        ⟨PyResult.ret true, some (writeChunks chunks), K + 1,
         (List.range' 0 K).map (fun i => (2:ℚ)^i + j i)⟩ := by
      exact downloadAux_success ev j chunks K (MAX_RETRIES+1) 0 (some prior)
        (by omega) (by omega) (fun n _ h2 => hfail n (by omega)) (by simpa using hsucc)
    simp [process_link_file, if_neg hurl, hd, hbytes, fileSize, hppos]
  · have hfile := (downloadAux_noSuccess ev j hno (MAX_RETRIES+1) 0 (some prior)).1
    have hnt := (downloadAux_noSuccess ev j hno (MAX_RETRIES+1) 0 (some prior)).2
    obtain ⟨b, hb⟩ := download_molecule_ret ev j 0 (some prior)
    simp only [download_molecule] at hb
    have hbf : b = false := by
      cases b
      · rfl
      · exact absurd hb hnt
    subst hbf
    simp [process_link_file, if_neg hurl, download_molecule, hb, hfile, fileSize, hp]

/-- Witness for C9: a prior one-byte artifact and a re-fetch that only
ever hits network errors. -/
theorem C9_witness :
    (process_link_file "SN5" (LinkSpec.content "u")
        (fun _ => AttemptEvent.netError) (fun _ => 0) (some [7])).2 = some [7] :=
  C9_rerun_preserves_artifact "SN5" "u" (fun _ => AttemptEvent.netError) (fun _ => 0)
    [7] (by decide) (by decide) (Or.inr (fun _ => rfl))

/-- C10: with zero `.txt` link files — and likewise when the directory
listing raises — `main` dispatches nothing and writes no summary
artifact. -/
theorem C10_no_summary_without_links (entries : List DirEntry)
    (run : String → ItemRun) (flag : Bool)
    (h : linkFiles entries = []) :
    (main (Listing.ok entries) run flag).dispatched = [] ∧
    (main (Listing.ok entries) run flag).summary = none ∧
    (main Listing.error run flag).dispatched = [] ∧
    (main Listing.error run flag).summary = none := by
  refine ⟨?_, ?_, rfl, rfl⟩ <;> simp [main, h]

/-- Witness for C10: a directory with one non-`.txt` entry. -/
theorem C10_witness :
    (main (Listing.ok [⟨"a.mol", true⟩]) (fun _ => ItemRun.raisedFuture)
        true).dispatched = [] ∧
    (main (Listing.ok [⟨"a.mol", true⟩]) (fun _ => ItemRun.raisedFuture)
        true).summary = none ∧
    (main Listing.error (fun _ => ItemRun.raisedFuture) true).dispatched = [] ∧
    (main Listing.error (fun _ => ItemRun.raisedFuture) true).summary = none :=
  C10_no_summary_without_links [⟨"a.mol", true⟩] (fun _ => ItemRun.raisedFuture)
    true (by decide)

end AntiviralDownload
